import Mathlib

/-!
Shallow embedding of the `topstepx` Python client library
(`src/topstepx/auth.py`, `src/topstepx/client.py`, `src/topstepx/models.py`,
`src/topstepx/exceptions.py`) and verification of its specification.

Modelling conventions:
* JSON values are the inductive `Json`; a response body is an `Envelope`
  record whose fields are `Option`-valued, `none` meaning the key is absent
  (mirroring Python's `dict.get`).
* Wall-clock instants (`datetime.now()`) are integers counting seconds;
  `timedelta(hours = h)` is `h * 3600` and `timedelta(minutes = m)` is
  `m * 60`.
* Python truthiness of an `Optional[bool]` (`data.get("success")`) is
  `pyTruthy`; truthiness of an `Optional[str]` (`not self.token`) is
  `strTruthy` (`None` and `""` are falsy).
* Stateful methods of `TopStepXAuth` become explicit state passing: they
  take the current `AuthState`, the current time, and the envelope the
  server would answer with, and return a result together with the new state
  and the number of login exchanges performed.
* Raised exceptions become `Except` error values.
-/

/-- A JSON value, as produced by `response.json()`. -/
inductive Json where
  | null : Json
  | bool (b : Bool) : Json
  | int (n : Int) : Json
  | str (s : String) : Json
  | arr (xs : List Json) : Json
  | obj (kvs : List (String × Json)) : Json
  | num (q : Rat) : Json

/-- A response body, with every field optional: `none` models an absent
key, matching Python's `data.get(k)` returning `None`.  The payload fields
cover every key any endpooint of `client.py`/`auth.py` reads. -/
structure Envelope where
  success : Option Bool
  errorCode : Option Int
  errorMessage : Option String
  token : Option String
  accounts : Option Json
  contracts : Option Json
  orders : Option Json
  positions : Option Json
  trades : Option Json

/-- An envelope carrying nothing at all (every key absent). -/
def Envelope.empty : Envelope :=
  ⟨none, none, none, none, none, none, none, none, none⟩

/-- Python truthiness of `data.get("success")` when the value, if present,
is a JSON boolean: `None` is falsy, a present boolean is its own truth
value. -/
def pyTruthy : Option Bool → Bool
  | none => false
  | some b => b

/-- Python truthiness of an `Optional[str]`: `None` and the empty string
are falsy (`not self.token`). -/
def strTruthy : Option String → Bool
  | none => false
  | some s => !(s == "")

/-- Python `f"{x}"` for `x : Optional[str]`: interpolating `None` yields
the literal text `"None"`. -/
def pyFormatOptStr : Option String → String
  | none => "None"
  | some s => s

/-! ## `src/topstepx/auth.py` — `TopStepXAuth` -/

/-- `TOKEN_VALIDITY_HOURS = 24` (auth.py line 14). -/
def TOKEN_VALIDITY_HOURS : Int := 24

/-- `TOKEN_REFRESH_MARGIN_MINUTES = 5` (auth.py line 15). -/
def TOKEN_REFRESH_MARGIN_MINUTES : Int := 5

/-- The mutable state of a `TopStepXAuth` object: credentials fixed at
construction, plus `self.token : Optional[str]` and
`self.token_expires : Optional[datetime]`. -/
structure AuthState where
  username : String
  api_key : String
  token : Option String
  token_expires : Option Int
deriving DecidableEq, Repr

/-- `TopStepXAuth.__init__`: stores the credentials and sets both
`token` and `token_expires` to `None`. -/
def AuthState.init (username api_key : String) : AuthState :=
  ⟨username, api_key, none, none⟩

/-- `TopStepXAuth._is_token_expired` (auth.py lines 99-109): `True` when
`token_expires` is `None`, otherwise `datetime.now() >= token_expires -
timedelta(minutes=TOKEN_REFRESH_MARGIN_MINUTES)`. -/
def is_token_expired (st : AuthState) (now : Int) : Bool :=
  match st.token_expires with
  | none => true
  | some e => decide (now ≥ e - TOKEN_REFRESH_MARGIN_MINUTES * 60)

/-- The spec's `isTokenValid()` predicate is the negation of the code's
`_is_token_expired`. -/
def isTokenValid (st : AuthState) (now : Int) : Bool :=
  !(is_token_expired st now)

/-- `TopStepXAuth.get_headers` (auth.py lines 44-51): the single-entry
header list `{"Authorization": f"Bearer {self.token}"}`, built by f-string
interpolation of the possibly-`None` token, with no state change. -/
def get_headers (st : AuthState) : List (String × String) :=
  [("Authorization", "Bearer " ++ pyFormatOptStr st.token)]

/-- What `_login` can raise: `AuthenticationError(message, error_code)`
on a failure envelope, or Python's `KeyError` when the success branch
reads the absent `data["token"]`. -/
inductive LoginErr where
  | authError (message : String) (error_code : Option Int) : LoginErr
  | keyError : LoginErr
deriving DecidableEq, Repr

/-- `TopStepXAuth._login` (auth.py lines 53-80), given the envelope `env`
the server answers with at time `now`.  On
`data.get("success") and data.get("errorCode") == 0` it sets
`self.token = data["token"]` (a `KeyError` if the key is absent, evaluated
before any mutation) and `self.token_expires = datetime.now() +
timedelta(hours=TOKEN_VALIDITY_HOURS)`; otherwise it raises
`AuthenticationError(data.get("errorMessage", "Unknown error"),
data.get("errorCode"))` and mutates nothing. -/
def login (st : AuthState) (now : Int) (env : Envelope) :
    Except LoginErr Unit × AuthState :=
  if pyTruthy env.success && (env.errorCode == some (0 : Int)) then
    match env.token with
    | some t =>
        (Except.ok (),
         { st with token := some t,
                   token_expires := some (now + TOKEN_VALIDITY_HOURS * 3600) })
    | none => (Except.error LoginErr.keyError, st)
  else
    (Except.error
      (LoginErr.authError (env.errorMessage.getD "Unknown error") env.errorCode),
     st)

/-- `TopStepXAuth.get_valid_token` (auth.py lines 30-42): when
`not self.token or self._is_token_expired()` it performs one login
exchange (the server answering `env`); then it returns `self.token`.  The
`Nat` component counts login exchanges performed during the call. -/
def get_valid_token (st : AuthState) (now : Int) (env : Envelope) :
    Except LoginErr (Option String) × AuthState × Nat :=
  if !(strTruthy st.token) || is_token_expired st now then
    match login st now env with
    | (Except.ok _, st') => (Except.ok st'.token, st', 1)
    | (Except.error e, st') => (Except.error e, st', 1)
  else
    (Except.ok st.token, st, 0)

/-! ## `src/topstepx/client.py` — `TopStepXClient`

Every method of `TopStepXClient` has the same two pure halves, which we
embed separately: a request-payload builder (the `json=` argument of the
POST) and a response mapping from the server's `Envelope` to either the
returned value or the raised exception.  The `await
self.auth.get_valid_token()` prelude shared by every method is the
state-passing `get_valid_token` above. -/

/-- Python `datetime.datetime` restricted to whole seconds (the client
only calls `.isoformat()` on it). -/
structure DateTime where
  year : Nat
  month : Nat
  day : Nat
  hour : Nat
  minute : Nat
  second : Nat
deriving DecidableEq, Repr

/-- Decimal rendering of `n` left-padded with zeros to width `w`. -/
def padNum (w : Nat) (n : Nat) : String :=
  let s := toString n
  String.mk (List.replicate (w - s.length) '0') ++ s

/-- `datetime.isoformat()` for a whole-second datetime:
`YYYY-MM-DDTHH:MM:SS` (Python omits the microsecond part when it is 0). -/
def DateTime.isoformat (d : DateTime) : String :=
  padNum 4 d.year ++ "-" ++ padNum 2 d.month ++ "-" ++ padNum 2 d.day ++ "T" ++
    padNum 2 d.hour ++ ":" ++ padNum 2 d.minute ++ ":" ++ padNum 2 d.second

/-- JSON serialization of a Python `Optional` argument: `None` becomes
JSON `null`. -/
def optJson (f : α → Json) : Option α → Json
  | none => Json.null
  | some a => f a

/-- Which exception class a failing client method raises
(`exceptions.py`): `APIError`, `OrderError` or `PositionError`. -/
inductive ErrKind where
  | apiError : ErrKind
  | orderError : ErrKind
  | positionError : ErrKind
deriving DecidableEq, Repr

/-- A raised client exception: its class together with the `message` and
`error_code` constructor arguments (`TopStepXError.__init__`). -/
structure DomainError where
  kind : ErrKind
  message : String
  error_code : Option Int
deriving DecidableEq, Repr

/-- `get_active_accounts` response mapping (client.py lines 56-64):
on `data.get("success") and data.get("errorCode") == 0` return
`data.get("accounts", [])`, else raise `APIError`. -/
def get_active_accounts_resp (env : Envelope) : Except DomainError Json :=
  if pyTruthy env.success && (env.errorCode == some (0 : Int)) then
    Except.ok (env.accounts.getD (Json.arr []))
  else
    Except.error
      ⟨ErrKind.apiError, env.errorMessage.getD "Unknown error", env.errorCode⟩

/-- `get_available_contracts` response mapping (client.py lines 90-98):
returns `data.get("contracts", [])` or raises `APIError`. -/
def get_available_contracts_resp (env : Envelope) : Except DomainError Json :=
  if pyTruthy env.success && (env.errorCode == some (0 : Int)) then
    Except.ok (env.contracts.getD (Json.arr []))
  else
    Except.error
      ⟨ErrKind.apiError, env.errorMessage.getD "Unknown error", env.errorCode⟩

/-- `place_order` response mapping (client.py lines 158-166): returns the
whole envelope `data` or raises `OrderError`. -/
def place_order_resp (env : Envelope) : Except DomainError Envelope :=
  if pyTruthy env.success && (env.errorCode == some (0 : Int)) then
    Except.ok env
  else
    Except.error
      ⟨ErrKind.orderError, env.errorMessage.getD "Unknown error", env.errorCode⟩

/-- `search_orders` response mapping (client.py lines 204-212): returns
`data.get("orders", [])` or raises `OrderError`. -/
def search_orders_resp (env : Envelope) : Except DomainError Json :=
  if pyTruthy env.success && (env.errorCode == some (0 : Int)) then
    Except.ok (env.orders.getD (Json.arr []))
  else
    Except.error
      ⟨ErrKind.orderError, env.errorMessage.getD "Unknown error", env.errorCode⟩

/-- `get_open_orders` response mapping (client.py lines 236-244): returns
`data.get("orders", [])` or raises `OrderError`. -/
def get_open_orders_resp (env : Envelope) : Except DomainError Json :=
  if pyTruthy env.success && (env.errorCode == some (0 : Int)) then
    Except.ok (env.orders.getD (Json.arr []))
  else
    Except.error
      ⟨ErrKind.orderError, env.errorMessage.getD "Unknown error", env.errorCode⟩

/-- `cancel_order` response mapping (client.py lines 269-277): returns
the whole envelope or raises `OrderError`. -/
def cancel_order_resp (env : Envelope) : Except DomainError Envelope :=
  if pyTruthy env.success && (env.errorCode == some (0 : Int)) then
    Except.ok env
  else
    Except.error
      ⟨ErrKind.orderError, env.errorMessage.getD "Unknown error", env.errorCode⟩

/-- `modify_order` response mapping (client.py lines 323-331): returns
the whole envelope or raises `OrderError`. -/
def modify_order_resp (env : Envelope) : Except DomainError Envelope :=
  if pyTruthy env.success && (env.errorCode == some (0 : Int)) then
    Except.ok env
  else
    Except.error
      ⟨ErrKind.orderError, env.errorMessage.getD "Unknown error", env.errorCode⟩

/-- `get_open_positions` response mapping (client.py lines 357-365):
returns `data.get("positions", [])` or raises `PositionError`. -/
def get_open_positions_resp (env : Envelope) : Except DomainError Json :=
  if pyTruthy env.success && (env.errorCode == some (0 : Int)) then
    Except.ok (env.positions.getD (Json.arr []))
  else
    Except.error
      ⟨ErrKind.positionError, env.errorMessage.getD "Unknown error", env.errorCode⟩

/-- `close_position` response mapping (client.py lines 390-398): returns
the whole envelope or raises `PositionError`. -/
def close_position_resp (env : Envelope) : Except DomainError Envelope :=
  if pyTruthy env.success && (env.errorCode == some (0 : Int)) then
    Except.ok env
  else
    Except.error
      ⟨ErrKind.positionError, env.errorMessage.getD "Unknown error", env.errorCode⟩

/-- `partial_close_position` response mapping (client.py lines 433-441):
returns the whole envelope or raises `PositionError`. -/
def part_close_position_resp (env : Envelope) : Except DomainError Envelope :=
  if pyTruthy env.success && (env.errorCode == some (0 : Int)) then
    Except.ok env
  else
    Except.error
      ⟨ErrKind.positionError, env.errorMessage.getD "Unknown error", env.errorCode⟩

/-- `search_trades` response mapping (client.py lines 482-490): returns
`data.get("trades", [])` or raises `APIError`. -/
def search_trades_resp (env : Envelope) : Except DomainError Json :=
  if pyTruthy env.success && (env.errorCode == some (0 : Int)) then
    Except.ok (env.trades.getD (Json.arr []))
  else
    Except.error
      ⟨ErrKind.apiError, env.errorMessage.getD "Unknown error", env.errorCode⟩

/-- `search_orders` request payload (client.py lines 190-195): the dict
`{"accountId": ..., "startTimestamp": start.isoformat()}`, then
`endTimestamp` appended only under `if end_timestamp:` — a
`datetime` object is always truthy in Python, so exactly when the caller
passed one. -/
def search_orders_payload (account_id : Int) (start_timestamp : DateTime)
    (end_timestamp : Option DateTime) : List (String × Json) :=
  let payload := [("accountId", Json.int account_id),
                  ("startTimestamp", Json.str start_timestamp.isoformat)]
  match end_timestamp with
  | none => payload
  | some e => payload ++ [("endTimestamp", Json.str e.isoformat)]

/-- `search_trades` request payload (client.py lines 468-473): identical
shape to `search_orders_payload`. -/
def search_trades_payload (account_id : Int) (start_timestamp : DateTime)
    (end_timestamp : Option DateTime) : List (String × Json) :=
  let payload := [("accountId", Json.int account_id),
                  ("startTimestamp", Json.str start_timestamp.isoformat)]
  match end_timestamp with
  | none => payload
  | some e => payload ++ [("endTimestamp", Json.str e.isoformat)]

/-- `modify_order` request payload (client.py lines 307-314): a dict that
always carries all six keys, `None` arguments serialized as JSON `null`. -/
def modify_order_payload (account_id order_id : Int) (size : Option Int)
    (limit_price stop_price trail_price : Option Rat) :
    List (String × Json) :=
  [("accountId", Json.int account_id),
   ("orderId", Json.int order_id),
   ("size", optJson Json.int size),
   ("limitPrice", optJson Json.num limit_price),
   ("stopPrice", optJson Json.num stop_price),
   ("trailPrice", optJson Json.num trail_price)]

/-! ## Reachable session states

`token`/`token_expires` are assigned only inside `_login`
(auth.py lines 72-75); `get_valid_token` mutates state only through its
call to `_login`; `get_headers`, `_is_token_expired` and `validate_token`
never assign to `self`.  A step is therefore one call to `_login` or to
`get_valid_token`, with an arbitrary current time and server answer. -/

/-- One state-mutating public call on a `TopStepXAuth` object. -/
inductive AuthStep : AuthState → AuthState → Prop where
  | login (st : AuthState) (now : Int) (env : Envelope) :
      AuthStep st (login st now env).2
  | get_valid_token (st : AuthState) (now : Int) (env : Envelope) :
      AuthStep st (get_valid_token st now env).2.1

/-- The session states reachable from construction
(`TopStepXAuth(username, api_key)`) by any sequence of public calls. -/
def ReachableAuth (username api_key : String) (st : AuthState) : Prop :=
  Relation.ReflTransGen AuthStep (AuthState.init username api_key) st

/-! ## Theorems -/

/-- `pyTruthy o` holds exactly when the value is a present `True`. -/
lemma pyTruthy_eq_true (o : Option Bool) : pyTruthy o = true ↔ o = some true := by
  cases o <;> simp [pyTruthy]

/-- The shared envelope check `data.get("success") and
data.get("errorCode") == 0` succeeds exactly on `success == true` and
`errorCode == 0`. -/
lemma envelope_check_iff (env : Envelope) :
    (pyTruthy env.success && (env.errorCode == some (0 : Int))) = true ↔
      (env.success = some true ∧ env.errorCode = some 0) := by
  rw [Bool.and_eq_true, pyTruthy_eq_true, beq_iff_eq]

/-- C2: on any envelope with `success != true` or `errorCode != 0`,
`login()` raises `AuthenticationError` carrying the envelope's
`errorMessage` (defaulted to `"Unknown error"` when the key is absent)
and `errorCode`, and returns the session state exactly as it was: the
token and expiry are not touched. -/
theorem login_failure_spec (st : AuthState) (now : Int) (env : Envelope)
    (h : ¬(env.success = some true ∧ env.errorCode = some 0)) :
    login st now env =
      (Except.error
        (LoginErr.authError (env.errorMessage.getD "Unknown error") env.errorCode),
       st) := by
  have hb : (pyTruthy env.success && (env.errorCode == some (0 : Int))) = false := by
    rw [Bool.eq_false_iff]
    exact fun hb => h ((envelope_check_iff env).mp hb)
  simp [login, hb]

/-- Witness for C2: the spec's mocked failure
`{success: false, errorCode: 7, errorMessage: "bad key"}` makes `login()`
raise `AuthenticationError("bad key", 7)` and leaves a fresh session
unauthenticated. -/
theorem login_failure_witness :
    login (AuthState.init "u" "k") 0
        ⟨some false, some 7, some "bad key", none, none, none, none, none, none⟩ =
      (Except.error (LoginErr.authError "bad key" (some 7)),
       AuthState.init "u" "k") :=
  login_failure_spec (AuthState.init "u" "k") 0
    ⟨some false, some 7, some "bad key", none, none, none, none, none, none⟩
    (by decide)

/-- On a success envelope carrying a token, `_login` stores the token
and stamps the expiry `TOKEN_VALIDITY_HOURS` after the current time. -/
lemma login_success_eq (st : AuthState) (now : Int) (env : Envelope) (t : String)
    (hs : env.success = some true) (hc : env.errorCode = some 0)
    (ht : env.token = some t) :
    login st now env =
      (Except.ok (),
       { st with token := some t,
                 token_expires := some (now + TOKEN_VALIDITY_HOURS * 3600) }) := by
  simp [login, pyTruthy, hs, hc, ht]

/-- C5: on any envelope with `success == true` and `errorCode == 0`
carrying a token, `login()` stores that token and sets the expiry to the
current time plus the 24-hour client-side validity window
(`TOKEN_VALIDITY_HOURS = 24`, i.e. `now + 24 * 3600` seconds — nothing
from the server is consulted for the expiry). -/
theorem login_success_spec :
    TOKEN_VALIDITY_HOURS = 24 ∧
    ∀ (st : AuthState) (now : Int) (env : Envelope) (t : String),
      env.success = some true → env.errorCode = some 0 → env.token = some t →
      login st now env =
        (Except.ok (),
         { st with token := some t,
                   token_expires := some (now + TOKEN_VALIDITY_HOURS * 3600) }) :=
  ⟨rfl, fun st now env t hs hc ht => login_success_eq st now env t hs hc ht⟩

/-- Witness for C5: a successful login at time 0 with token `"abc"`
stores `"abc"` and expiry 86400 seconds (24 hours) later. -/
theorem login_success_witness :
    login (AuthState.init "u" "k") 0
        ⟨some true, some 0, none, some "abc", none, none, none, none, none⟩ =
      (Except.ok (), ⟨"u", "k", some "abc", some 86400⟩) :=
  login_success_spec.2 (AuthState.init "u" "k") 0
    ⟨some true, some 0, none, some "abc", none, none, none, none, none⟩
    "abc" rfl rfl rfl

/-- C3: `isTokenValid` is a pure function of the session state and the
clock (no state is returned, hence no side effects).  On any session
state satisfying the data-model invariant that `token` and `token_expires`
are set together, it is true iff a token exists and the current time is
strictly before the expiry minus the 5-minute refresh margin; in
particular it is false on a freshly constructed session, false when the
expiry is 3 minutes (180 s) in the future, and true when it is
10 minutes (600 s) in the future. -/
theorem isTokenValid_spec :
    (∀ (st : AuthState) (now : Int),
        st.token.isSome = st.token_expires.isSome →
        (isTokenValid st now = true ↔
          (∃ t, st.token = some t) ∧
          ∃ e, st.token_expires = some e ∧
            now < e - TOKEN_REFRESH_MARGIN_MINUTES * 60))
    ∧ (∀ (u k : String) (now : Int), isTokenValid (AuthState.init u k) now = false)
    ∧ (∀ (st : AuthState) (now : Int),
        st.token_expires = some (now + 180) → isTokenValid st now = false)
    ∧ (∀ (st : AuthState) (now : Int),
        st.token_expires = some (now + 600) → isTokenValid st now = true) := by
  refine ⟨fun st now hinv => ?_, fun u k now => ?_, fun st now h => ?_, fun st now h => ?_⟩
  · cases hte : st.token_expires with
    | none =>
        rw [hte] at hinv
        simp [isTokenValid, is_token_expired, hte]
    | some e =>
        rw [hte] at hinv
        obtain ⟨t, ht⟩ := Option.isSome_iff_exists.mp (by simpa using hinv)
        simp [isTokenValid, is_token_expired, hte, ht, TOKEN_REFRESH_MARGIN_MINUTES]
        omega
  · simp [isTokenValid, is_token_expired, AuthState.init]
  · simp [isTokenValid, is_token_expired, h, TOKEN_REFRESH_MARGIN_MINUTES]
  · simp [isTokenValid, is_token_expired, h, TOKEN_REFRESH_MARGIN_MINUTES]

/-- Witness for C3: a session holding a token whose expiry is 600 s
(10 minutes) ahead of the clock is valid. -/
theorem isTokenValid_witness :
    isTokenValid ⟨"u", "k", some "tok", some 600⟩ 0 = true :=
  (isTokenValid_spec.1 ⟨"u", "k", some "tok", some 600⟩ 0 rfl).mpr
    ⟨⟨"tok", rfl⟩, 600, rfl, by decide⟩

/-- C6: `get_headers` returns exactly the one-entry mapping
`{"Authorization": "Bearer " + token}`; it depends on nothing but the
stored token (so there is no validity check and, being a pure function of
the state, no mutation).  With `token = "my_token"` the header is
`"Bearer my_token"`; on a never-authenticated session the `None` token is
interpolated, giving `"Bearer None"`. -/
theorem get_headers_spec :
    (∀ (st : AuthState) (t : String), st.token = some t →
        get_headers st = [("Authorization", "Bearer " ++ t)])
    ∧ (∀ st st' : AuthState, st.token = st'.token → get_headers st = get_headers st')
    ∧ (∀ (u k : String) (e : Option Int),
        get_headers ⟨u, k, some "my_token", e⟩ =
          [("Authorization", "Bearer my_token")])
    ∧ (∀ u k : String,
        get_headers (AuthState.init u k) = [("Authorization", "Bearer None")]) := by
  refine ⟨fun st t ht => ?_, fun st st' h => ?_, fun u k e => rfl, fun u k => rfl⟩
  · simp [get_headers, ht, pyFormatOptStr]
  · simp [get_headers, h]

/-- Witness for C6: the session from the spec's example. -/
theorem get_headers_witness :
    get_headers ⟨"u", "k", some "my_token", none⟩ =
      [("Authorization", "Bearer my_token")] :=
  get_headers_spec.1 ⟨"u", "k", some "my_token", none⟩ "my_token" rfl

/-- C1: every domain operation's response mapping returns its declared
payload exactly when the envelope has `success == true` and
`errorCode == 0`; in every other case it raises its operation-specific
error kind with `message = errorMessage` (or `"Unknown error"` when the
key is absent) and `error_code = errorCode`. -/
theorem envelope_protocol_spec (env : Envelope) :
    (get_active_accounts_resp env =
      if env.success = some true ∧ env.errorCode = some 0
      then Except.ok (env.accounts.getD (Json.arr []))
      else Except.error
        ⟨ErrKind.apiError, env.errorMessage.getD "Unknown error", env.errorCode⟩)
    ∧ (get_available_contracts_resp env =
      if env.success = some true ∧ env.errorCode = some 0
      then Except.ok (env.contracts.getD (Json.arr []))
      else Except.error
        ⟨ErrKind.apiError, env.errorMessage.getD "Unknown error", env.errorCode⟩)
    ∧ (place_order_resp env =
      if env.success = some true ∧ env.errorCode = some 0
      then Except.ok env
      else Except.error
        ⟨ErrKind.orderError, env.errorMessage.getD "Unknown error", env.errorCode⟩)
    ∧ (search_orders_resp env =
      if env.success = some true ∧ env.errorCode = some 0
      then Except.ok (env.orders.getD (Json.arr []))
      else Except.error
        ⟨ErrKind.orderError, env.errorMessage.getD "Unknown error", env.errorCode⟩)
    ∧ (get_open_orders_resp env =
      if env.success = some true ∧ env.errorCode = some 0
      then Except.ok (env.orders.getD (Json.arr []))
      else Except.error
        ⟨ErrKind.orderError, env.errorMessage.getD "Unknown error", env.errorCode⟩)
    ∧ (cancel_order_resp env =
      if env.success = some true ∧ env.errorCode = some 0
      then Except.ok env
      else Except.error
        ⟨ErrKind.orderError, env.errorMessage.getD "Unknown error", env.errorCode⟩)
    ∧ (modify_order_resp env =
      if env.success = some true ∧ env.errorCode = some 0
      then Except.ok env
      else Except.error
        ⟨ErrKind.orderError, env.errorMessage.getD "Unknown error", env.errorCode⟩)
    ∧ (get_open_positions_resp env =
      if env.success = some true ∧ env.errorCode = some 0
      then Except.ok (env.positions.getD (Json.arr []))
      else Except.error
        ⟨ErrKind.positionError, env.errorMessage.getD "Unknown error", env.errorCode⟩)
    ∧ (close_position_resp env =
      if env.success = some true ∧ env.errorCode = some 0
      then Except.ok env
      else Except.error
        ⟨ErrKind.positionError, env.errorMessage.getD "Unknown error", env.errorCode⟩)
    ∧ (part_close_position_resp env =
      if env.success = some true ∧ env.errorCode = some 0
      then Except.ok env
      else Except.error
        ⟨ErrKind.positionError, env.errorMessage.getD "Unknown error", env.errorCode⟩)
    ∧ (search_trades_resp env =
      if env.success = some true ∧ env.errorCode = some 0
      then Except.ok (env.trades.getD (Json.arr []))
      else Except.error
        ⟨ErrKind.apiError, env.errorMessage.getD "Unknown error", env.errorCode⟩) := by
  by_cases h : env.success = some true ∧ env.errorCode = some 0
  · have hb : (pyTruthy env.success && (env.errorCode == some (0 : Int))) = true :=
      (envelope_check_iff env).mpr h
    refine ⟨?_, ?_, ?_, ?_, ?_, ?_, ?_, ?_, ?_, ?_, ?_⟩ <;>
      simp [get_active_accounts_resp, get_available_contracts_resp, place_order_resp,
        search_orders_resp, get_open_orders_resp, cancel_order_resp, modify_order_resp,
        get_open_positions_resp, close_position_resp, part_close_position_resp,
        search_trades_resp, pyTruthy, hb, h]
  · have hb : (pyTruthy env.success && (env.errorCode == some (0 : Int))) = false :=
      Bool.eq_false_iff.mpr fun hb => h ((envelope_check_iff env).mp hb)
    refine ⟨?_, ?_, ?_, ?_, ?_, ?_, ?_, ?_, ?_, ?_, ?_⟩ <;>
      simp [get_active_accounts_resp, get_available_contracts_resp, place_order_resp,
        search_orders_resp, get_open_orders_resp, cancel_order_resp, modify_order_resp,
        get_open_positions_resp, close_position_resp, part_close_position_resp,
        search_trades_resp, hb, h]

/-- C10: a response body missing the `success` key or the `errorCode` key
is a failure for every operation that parses an envelope — the domain
operations raise their error kind and `login()` raises
`AuthenticationError` — with `message = "Unknown error"` when
`errorMessage` is also absent and `error_code = errorCode` (hence `None`
exactly when the `errorCode` key is absent), regardless of any payload
fields the body carries. -/
theorem missing_envelope_keys_spec (st : AuthState) (now : Int) (env : Envelope)
    (h : env.success = none ∨ env.errorCode = none) :
    (get_active_accounts_resp env =
      Except.error
        ⟨ErrKind.apiError, env.errorMessage.getD "Unknown error", env.errorCode⟩)
    ∧ (place_order_resp env =
      Except.error
        ⟨ErrKind.orderError, env.errorMessage.getD "Unknown error", env.errorCode⟩)
    ∧ (login st now env =
      (Except.error
        (LoginErr.authError (env.errorMessage.getD "Unknown error") env.errorCode),
       st))
    ∧ (env.errorMessage = none → env.errorMessage.getD "Unknown error" = "Unknown error")
    ∧ (env.errorCode = none → env.errorCode = (none : Option Int)) := by
  have hb : (pyTruthy env.success && (env.errorCode == some (0 : Int))) = false := by
    rcases h with h | h <;> simp [pyTruthy, h]
  refine ⟨?_, ?_, ?_, fun hm => by simp [hm], fun hc => hc⟩
  · simp [get_active_accounts_resp, hb]
  · simp [place_order_resp, hb]
  · simp [login, hb]

/-- Witness for C10: a body carrying only the expected payload
(`accounts`) and neither `success` nor `errorCode` nor `errorMessage`
makes `get_active_accounts` raise `APIError("Unknown error", None)`. -/
theorem missing_envelope_keys_witness :
    get_active_accounts_resp
        ⟨none, none, none, none, some (Json.arr [Json.int 1]), none, none, none, none⟩ =
      Except.error ⟨ErrKind.apiError, "Unknown error", none⟩ :=
  (missing_envelope_keys_spec (AuthState.init "u" "k") 0
      ⟨none, none, none, none, some (Json.arr [Json.int 1]), none, none, none, none⟩
      (Or.inl rfl)).1

/-- C8: every `search_orders`/`search_trades` request payload carries
`startTimestamp` as the ISO-8601 rendering of the start datetime, and
carries an `endTimestamp` key exactly when the caller supplied an end
datetime (in which case its value is that datetime's ISO-8601 rendering);
with no end datetime the key is absent, not null. -/
theorem search_payload_spec (account_id : Int) (start_timestamp : DateTime)
    (end_timestamp : Option DateTime) :
    (("startTimestamp", Json.str start_timestamp.isoformat) ∈
        search_orders_payload account_id start_timestamp end_timestamp)
    ∧ (("startTimestamp", Json.str start_timestamp.isoformat) ∈
        search_trades_payload account_id start_timestamp end_timestamp)
    ∧ ((∃ v, ("endTimestamp", v) ∈
          search_orders_payload account_id start_timestamp end_timestamp) ↔
        end_timestamp.isSome)
    ∧ ((∃ v, ("endTimestamp", v) ∈
          search_trades_payload account_id start_timestamp end_timestamp) ↔
        end_timestamp.isSome)
    ∧ (∀ e, end_timestamp = some e →
        ("endTimestamp", Json.str e.isoformat) ∈
            search_orders_payload account_id start_timestamp end_timestamp ∧
        ("endTimestamp", Json.str e.isoformat) ∈
            search_trades_payload account_id start_timestamp end_timestamp) := by
  cases end_timestamp <;>
    simp [search_orders_payload, search_trades_payload]

/-- Witness for C8: a concrete search window whose end is supplied; the
payload carries both ISO-8601 timestamps. -/
theorem search_payload_witness :
    ("endTimestamp", Json.str "2025-06-02T00:00:00") ∈
        search_orders_payload 7 ⟨2025, 6, 1, 9, 30, 0⟩ (some ⟨2025, 6, 2, 0, 0, 0⟩) ∧
    ("endTimestamp", Json.str "2025-06-02T00:00:00") ∈
        search_trades_payload 7 ⟨2025, 6, 1, 9, 30, 0⟩ (some ⟨2025, 6, 2, 0, 0, 0⟩) :=
  (search_payload_spec 7 ⟨2025, 6, 1, 9, 30, 0⟩ (some ⟨2025, 6, 2, 0, 0, 0⟩)).2.2.2.2
    ⟨2025, 6, 2, 0, 0, 0⟩ rfl

/-- C9: the `modify_order` request payload always carries exactly the
keys `accountId`, `orderId`, `size`, `limitPrice`, `stopPrice`,
`trailPrice` (in that order, none omitted), and every optional argument
the caller left unspecified is sent as JSON `null`. -/
theorem modify_order_payload_spec (account_id order_id : Int) (size : Option Int)
    (limit_price stop_price trail_price : Option Rat) :
    ((modify_order_payload account_id order_id size limit_price stop_price
        trail_price).map Prod.fst =
      ["accountId", "orderId", "size", "limitPrice", "stopPrice", "trailPrice"])
    ∧ (size = none →
        ("size", Json.null) ∈
          modify_order_payload account_id order_id size limit_price stop_price trail_price)
    ∧ (limit_price = none →
        ("limitPrice", Json.null) ∈
          modify_order_payload account_id order_id size limit_price stop_price trail_price)
    ∧ (stop_price = none →
        ("stopPrice", Json.null) ∈
          modify_order_payload account_id order_id size limit_price stop_price trail_price)
    ∧ (trail_price = none →
        ("trailPrice", Json.null) ∈
          modify_order_payload account_id order_id size limit_price stop_price trail_price) := by
  refine ⟨rfl, fun h => ?_, fun h => ?_, fun h => ?_, fun h => ?_⟩ <;>
    simp [modify_order_payload, optJson, h]

/-- Witness for C9: modifying only the size leaves the three price keys
present with `null` values. -/
theorem modify_order_payload_witness :
    ("limitPrice", Json.null) ∈ modify_order_payload 1 2 (some 3) none none none ∧
    ("stopPrice", Json.null) ∈ modify_order_payload 1 2 (some 3) none none none ∧
    ("trailPrice", Json.null) ∈ modify_order_payload 1 2 (some 3) none none none :=
  ⟨(modify_order_payload_spec 1 2 (some 3) none none none).2.2.1 rfl,
   (modify_order_payload_spec 1 2 (some 3) none none none).2.2.2.1 rfl,
   (modify_order_payload_spec 1 2 (some 3) none none none).2.2.2.2 rfl⟩

/-- `_login` preserves the set-together relationship between `token` and
`token_expires`: it either assigns both (success) or assigns neither
(failure). -/
lemma login_preserves_inv (st : AuthState) (now : Int) (env : Envelope)
    (h : st.token.isSome = st.token_expires.isSome) :
    (login st now env).2.token.isSome = (login st now env).2.token_expires.isSome := by
  by_cases hc : (pyTruthy env.success && (env.errorCode == some (0 : Int))) = true
  · cases ht : env.token with
    | none => simpa [login, hc, ht] using h
    | some t => simp [login, hc, ht]
  · rw [Bool.not_eq_true] at hc
    simpa [login, hc] using h

/-- The state after `get_valid_token` is either the state after its
internal `_login` call or the unchanged input state. -/
lemma get_valid_token_state_cases (st : AuthState) (now : Int) (env : Envelope) :
    (get_valid_token st now env).2.1 = (login st now env).2 ∨
    (get_valid_token st now env).2.1 = st := by
  unfold get_valid_token
  split
  · rcases hl : login st now env with ⟨r, st'⟩
    cases r <;> simp [hl]
  · simp

/-- C7: in every session state reachable from construction through the
public operations, `token` is non-null exactly when `token_expires` is
non-null — the two fields are only ever assigned together, by a
successful login. -/
theorem token_expiry_invariant (username api_key : String) (st : AuthState)
    (h : ReachableAuth username api_key st) :
    st.token.isSome = st.token_expires.isSome := by
  induction h with
  | refl => rfl
  | tail _ hstep ih =>
      cases hstep with
      | login now env => exact login_preserves_inv _ now env ih
      | get_valid_token now env =>
          rcases get_valid_token_state_cases _ now env with hc | hc
          · rw [hc]; exact login_preserves_inv _ now env ih
          · rw [hc]; exact ih

/-- Witness for C7: the freshly constructed session is reachable and
satisfies the invariant (both fields `None`). -/
theorem token_expiry_invariant_witness :
    (AuthState.init "u" "k").token.isSome =
      (AuthState.init "u" "k").token_expires.isSome :=
  token_expiry_invariant "u" "k" (AuthState.init "u" "k") Relation.ReflTransGen.refl

/-- Counterexample to C4 as stated: a session whose token is present
(`some ""`) and valid (expiry 86400 s ahead, far outside the margin)
nevertheless performs a login exchange on `getValidToken()`, because the
guard `not self.token` treats the empty-string token as falsy.  Such a
state is produced by a successful login whose envelope carries
`token: ""`. -/
theorem get_valid_token_fresh_cex :
    (AuthState.mk "user" "key" (some "") (some 86400)).token.isSome = true ∧
    isTokenValid (AuthState.mk "user" "key" (some "") (some 86400)) 0 = true ∧
    (get_valid_token (AuthState.mk "user" "key" (some "") (some 86400)) 0
        Envelope.empty).2.2 = 1 := by
  decide

/-- C4 (amended): for every session state holding a non-empty token that
is valid (the clock strictly before expiry minus the margin),
`getValidToken()` returns that token, performs no login exchange, and
leaves the state unchanged; hence, starting unauthenticated, two
successive `getValidToken()` calls whose login succeeds with a non-empty
token perform exactly one login exchange in total. -/
theorem get_valid_token_fresh_spec :
    (∀ (st : AuthState) (now : Int) (env : Envelope) (t : String),
        st.token = some t → t ≠ "" → isTokenValid st now = true →
        get_valid_token st now env = (Except.ok (some t), st, 0))
    ∧ (∀ (u k : String) (now : Int) (env env' : Envelope) (t : String),
        env.success = some true → env.errorCode = some 0 → env.token = some t →
        t ≠ "" →
        (get_valid_token (AuthState.init u k) now env).2.2 +
          (get_valid_token ((get_valid_token (AuthState.init u k) now env).2.1)
            now env').2.2 = 1) := by
  constructor
  · intro st now env t ht hne hv
    simp only [isTokenValid, Bool.not_eq_eq_eq_not, Bool.not_true] at hv
    have hs : strTruthy (some t) = true := by simp [strTruthy, hne]
    simp [get_valid_token, ht, hs, hv]
  · intro u k now env env' t hs hc ht hne
    have hl := login_success_eq (AuthState.init u k) now env t hs hc ht
    simp only [AuthState.init] at hl
    have h1 : get_valid_token (AuthState.init u k) now env =
        (Except.ok (some t),
         AuthState.mk u k (some t) (some (now + TOKEN_VALIDITY_HOURS * 3600)), 1) := by
      simp [get_valid_token, AuthState.init, strTruthy, is_token_expired, hl]
    have hvalid : is_token_expired
        (AuthState.mk u k (some t) (some (now + TOKEN_VALIDITY_HOURS * 3600))) now
          = false := by
      simp [is_token_expired, TOKEN_VALIDITY_HOURS, TOKEN_REFRESH_MARGIN_MINUTES]
    have h2 : get_valid_token
        (AuthState.mk u k (some t) (some (now + TOKEN_VALIDITY_HOURS * 3600))) now env' =
        (Except.ok (some t),
         AuthState.mk u k (some t) (some (now + TOKEN_VALIDITY_HOURS * 3600)), 0) := by
      have hs' : strTruthy (some t) = true := by simp [strTruthy, hne]
      simp [get_valid_token, hs', hvalid]
    rw [h1]
    simp [h2]

/-- Witness for amended C4: a valid non-empty token is returned with no
exchange, and from a fresh session two calls against a successful
`token: "tok"` login perform one exchange in total. -/
theorem get_valid_token_fresh_witness :
    get_valid_token ⟨"u", "k", some "tok", some 600⟩ 0 Envelope.empty =
      (Except.ok (some "tok"), ⟨"u", "k", some "tok", some 600⟩, 0) ∧
    (get_valid_token (AuthState.init "u" "k") 0
        ⟨some true, some 0, none, some "tok", none, none, none, none, none⟩).2.2 +
      (get_valid_token
        ((get_valid_token (AuthState.init "u" "k") 0
          ⟨some true, some 0, none, some "tok", none, none, none, none, none⟩).2.1)
        0 Envelope.empty).2.2 = 1 :=
  ⟨get_valid_token_fresh_spec.1 ⟨"u", "k", some "tok", some 600⟩ 0 Envelope.empty
      "tok" rfl (by decide) (by decide),
   get_valid_token_fresh_spec.2 "u" "k" 0
      ⟨some true, some 0, none, some "tok", none, none, none, none, none⟩
      Envelope.empty "tok" rfl rfl rfl (by decide)⟩
